import Mathlib

/-!
Verification of `addons/crm/wizard/validate_email.py`.

The module builds one large regular expression for the RFC 2822 `addr-spec`
production out of named token fragments and exposes `validate_email(email,
check_mx, verify)`, which optionally resolves MX records and probes the
resolved SMTP hosts.

We embed the regular expression as a `Regex` AST, mirroring the Python
string-concatenation of the pattern fragment by fragment, and match by
Brzozowski derivatives (existence of a match is all the code tests, so the
language semantics coincides with Python's backtracking search).  `re.match`
with the `^...$` anchoring is modelled including Python's `$` semantics:
`$` matches at the end of the string or just before a final newline.

Python's `\w` is modelled on its ASCII fragment `[0-9A-Za-z_]`; none of the
properties below depend on characters outside ASCII.

The effectful part (pyDNS and smtplib) is modelled by an oracle `World`
describing the network: whether the DNS package imported, the result of
`DNS.mxlookup` per queried hostname, and a per-host script giving the
outcome of each smtplib call (either a value or one of the two exception
types the code catches).  `validate_email` returns its result (normal return
or propagated exception) together with a `Trace` recording the DNS lookups
made and the indices of MX hosts on which a connection was attempted.
-/

namespace OdooEmail

/-- Regular expression AST: empty language, empty string, a character class
given by a predicate, concatenation, alternation, Kleene star. -/
inductive Regex : Type where
  | emp : Regex
  | eps : Regex
  | pred : (Char → Bool) → Regex
  | cat : Regex → Regex → Regex
  | alt : Regex → Regex → Regex
  | star : Regex → Regex

/-- Smart alternation: drops `emp` operands so derivatives stay small. -/
def salt : Regex → Regex → Regex
  | Regex.emp, s => s
  | r, Regex.emp => r
  | r, s => Regex.alt r s

/-- Smart concatenation: absorbs `emp` and drops `eps` operands. -/
def scat : Regex → Regex → Regex
  | Regex.emp, _ => Regex.emp
  | _, Regex.emp => Regex.emp
  | Regex.eps, s => s
  | r, Regex.eps => r
  | r, s => Regex.cat r s

/-- Does the regex accept the empty string? -/
def nullable : Regex → Bool
  | Regex.emp => false
  | Regex.eps => true
  | Regex.pred _ => false
  | Regex.cat r s => nullable r && nullable s
  | Regex.alt r s => nullable r || nullable s
  | Regex.star _ => true

/-- Brzozowski derivative of a regex by one character. -/
def deriv : Regex → Char → Regex
  | Regex.emp, _ => Regex.emp
  | Regex.eps, _ => Regex.emp
  | Regex.pred p, c => if p c then Regex.eps else Regex.emp
  | Regex.cat r s, c =>
      if nullable r then salt (scat (deriv r c) s) (deriv s c)
      else scat (deriv r c) s
  | Regex.alt r s, c => salt (deriv r c) (deriv s c)
  | Regex.star r, c => scat (deriv r c) (Regex.star r)

/-- Full-string match by iterated derivatives. -/
def rmatch (r : Regex) (s : List Char) : Bool :=
  nullable (s.foldl deriv r)

/-- Single literal character. -/
def rchar (c : Char) : Regex := Regex.pred (fun x => x == c)

/-- Python `?` (zero or one). -/
def ropt (r : Regex) : Regex := Regex.alt r Regex.eps

/-- Python `+` (one or more). -/
def rplus (r : Regex) : Regex := Regex.cat r (Regex.star r)

/-- `lo ≤ code point ≤ hi`. -/
def inRange (c : Char) (lo hi : Nat) : Bool :=
  decide (lo ≤ c.toNat) && decide (c.toNat ≤ hi)

/-- `NO_WS_CTL = r'\x01-\x08\x0b\x0c\x0f-\x1f\x7f'` (see 3.2.1). -/
def isNoWsCtl (c : Char) : Bool :=
  inRange c 1 8 || c.toNat == 11 || c.toNat == 12 || inRange c 15 31 || c.toNat == 127

/-- Python `\w`, ASCII fragment: `[0-9A-Za-z_]`. -/
def isWordChar (c : Char) : Bool :=
  inRange c 48 57 || inRange c 65 90 || c.toNat == 95 || inRange c 97 122

/-- The `ATEXT` character class (see 3.2.4): word characters plus the
specials listed in the source, namely the characters with codes
33 35 36 37 38 39 42 43 45 47 61 63 94 96 123 124 125 126. -/
def isAtext (c : Char) : Bool :=
  isWordChar c || c.toNat == 33 || c.toNat == 35 || c.toNat == 36 || c.toNat == 37 ||
    c.toNat == 38 || c.toNat == 39 || c.toNat == 42 || c.toNat == 43 || c.toNat == 45 ||
    c.toNat == 47 || c.toNat == 61 || c.toNat == 63 || c.toNat == 94 || c.toNat == 96 ||
    c.toNat == 123 || c.toNat == 124 || c.toNat == 125 || c.toNat == 126

/-- `QTEXT`: `NO_WS_CTL` plus `\x21`, `\x23-\x5b`, `\x5d-\x7e`. -/
def isQtext (c : Char) : Bool :=
  isNoWsCtl c || c.toNat == 33 || inRange c 35 91 || inRange c 93 126

/-- `DTEXT`: `NO_WS_CTL` plus `\x21-\x5a`, `\x5e-\x7e`. -/
def isDtext (c : Char) : Bool :=
  isNoWsCtl c || inRange c 33 90 || inRange c 94 126

/-- `CTEXT`: `NO_WS_CTL` plus `\x21-\x27`, `\x2a-\x5b`, `\x5d-\x7e`. -/
def isCtext (c : Char) : Bool :=
  isNoWsCtl c || inRange c 33 39 || inRange c 42 91 || inRange c 93 126

/-- `WSP = r'[ \t]'`. -/
def WSP : Regex := Regex.pred (fun c => c == ' ' || c == '\t')

/-- `CRLF = r'(?:\r\n)'`. -/
def CRLF : Regex := Regex.cat (rchar '\r') (rchar '\n')

/-- `QUOTED_PAIR = r'(?:\\.)'`; `.` is any character except newline. -/
def QUOTED_PAIR : Regex :=
  Regex.cat (rchar '\\') (Regex.pred (fun c => !(c == '\n')))

/-- `FWS = (?:(?:WSP*CRLF)?WSP+)`. -/
def FWS : Regex :=
  Regex.cat (ropt (Regex.cat (Regex.star WSP) CRLF)) (rplus WSP)

/-- `CCONTENT = (?:CTEXT|QUOTED_PAIR)`. -/
def CCONTENT : Regex := Regex.alt (Regex.pred isCtext) QUOTED_PAIR

/-- `COMMENT = \((?:FWS?CCONTENT)*FWS?\)` (see 3.2.3). -/
def COMMENT : Regex :=
  Regex.cat (rchar '(')
    (Regex.cat (Regex.star (Regex.cat (ropt FWS) CCONTENT))
      (Regex.cat (ropt FWS) (rchar ')')))

/-- The source text `CFWS + '?'`.  `CFWS` itself is
`(?:FWS?COMMENT)*(?:FWS?COMMENT|FWS)` with no outer group, so the trailing
`?` written after it in `ATOM`, `DOT_ATOM`, `QUOTED_STRING` and
`DOMAIN_LITERAL` binds only to the final `(?:FWS?COMMENT|FWS)` group.  We
embed that exact parse: `(?:FWS?COMMENT)*(?:FWS?COMMENT|FWS)?`. -/
def CFWS_opt : Regex :=
  Regex.cat (Regex.star (Regex.cat (ropt FWS) COMMENT))
    (ropt (Regex.alt (Regex.cat (ropt FWS) COMMENT) FWS))

/-- `ATEXT` as a one-character regex. -/
def ATEXT : Regex := Regex.pred isAtext

/-- `DOT_ATOM_TEXT = ATEXT+(?:\.ATEXT+)*` (see 3.2.4). -/
def DOT_ATOM_TEXT : Regex :=
  Regex.cat (rplus ATEXT) (Regex.star (Regex.cat (rchar '.') (rplus ATEXT)))

/-- `DOT_ATOM = CFWS?DOT_ATOM_TEXT CFWS?`. -/
def DOT_ATOM : Regex := Regex.cat CFWS_opt (Regex.cat DOT_ATOM_TEXT CFWS_opt)

/-- `QCONTENT = (?:QTEXT|QUOTED_PAIR)`. -/
def QCONTENT : Regex := Regex.alt (Regex.pred isQtext) QUOTED_PAIR

/-- `QUOTED_STRING = CFWS?"(?:FWS?QCONTENT)*FWS?"CFWS?`. -/
def QUOTED_STRING : Regex :=
  Regex.cat CFWS_opt
    (Regex.cat (rchar '"')
      (Regex.cat (Regex.star (Regex.cat (ropt FWS) QCONTENT))
        (Regex.cat (ropt FWS) (Regex.cat (rchar '"') CFWS_opt))))

/-- `LOCAL_PART = (?:DOT_ATOM|QUOTED_STRING)`. -/
def LOCAL_PART : Regex := Regex.alt DOT_ATOM QUOTED_STRING

/-- `DCONTENT = (?:DTEXT|QUOTED_PAIR)`. -/
def DCONTENT : Regex := Regex.alt (Regex.pred isDtext) QUOTED_PAIR

/-- `DOMAIN_LITERAL = CFWS?\[(?:FWS?DCONTENT)*FWS?\]CFWS?`. -/
def DOMAIN_LITERAL : Regex :=
  Regex.cat CFWS_opt
    (Regex.cat (rchar '[')
      (Regex.cat (Regex.star (Regex.cat (ropt FWS) DCONTENT))
        (Regex.cat (ropt FWS) (Regex.cat (rchar ']') CFWS_opt))))

/-- `DOMAIN = (?:DOT_ATOM|DOMAIN_LITERAL)`. -/
def DOMAIN : Regex := Regex.alt DOT_ATOM DOMAIN_LITERAL

/-- `ADDR_SPEC = LOCAL_PART@DOMAIN` (see 3.4.1). -/
def ADDR_SPEC : Regex :=
  Regex.cat LOCAL_PART (Regex.cat (rchar '@') DOMAIN)

/-- `re.match(VALID_ADDRESS_REGEXP, email) is not None`, where
`VALID_ADDRESS_REGEXP = '^' + ADDR_SPEC + '$'`.  Python's `$` (without
`re.MULTILINE`) matches at the end of the string or just before a newline at
the end of the string, so the test succeeds iff `ADDR_SPEC` matches the whole
string or the whole string minus a single final `'\n'`. -/
def pyMatchValid (email : String) : Bool :=
  rmatch ADDR_SPEC email.toList ||
    (email.toList.getLastD 'a' == '\n' && rmatch ADDR_SPEC email.toList.dropLast)

/-- The exception types an smtplib call in the loop body can raise.  The
code's `except` clauses catch `smtplib.SMTPServerDisconnected` and
`smtplib.SMTPConnectError`; a TCP-level connection failure (connection
refused, connect timeout) raises `OSError` from `socket.create_connection`
instead, which neither clause — nor the outer
`except (AssertionError, ServerError)` — catches.  (CPython's smtplib raises
`SMTPConnectError` only from `SMTP.__init__` when a host argument is given;
this code constructs `smtplib.SMTP()` bare and then calls `smtp.connect`,
so that handler is dead on the connect path.) -/
inductive SmtpErr : Type where
  | serverDisconnected : SmtpErr
  | connectError : SmtpErr
  | osError : SmtpErr
deriving DecidableEq

/-- Outcome of one smtplib call: a returned value, or one of the two
exception types the code's `except` clauses name. -/
inductive SmtpCall (α : Type) : Type where
  | ok : α → SmtpCall α
  | exn : SmtpErr → SmtpCall α
deriving DecidableEq

/-- Scripted behaviour of one SMTP host for one probe: the outcome of
`smtp.connect`, `smtp.helo()` (reply status), `smtp.mail('')` and
`smtp.rcpt(email)` (reply status), in the order the code issues them. -/
structure HostScript : Type where
  connectR : SmtpCall Unit
  heloR : SmtpCall Nat
  mailR : SmtpCall Unit
  rcptR : SmtpCall Nat
deriving DecidableEq

/-- What one iteration of the `for mx in mx_hosts` loop body does:
`ret b` for a `return b` out of the function, `next` for `continue`,
`stop` for `break`, and `raiseOs` when an `OSError` escapes the body —
caught by no `except` clause, it aborts the loop and the whole call. -/
inductive HostResult : Type where
  | ret : Bool → HostResult
  | next : HostResult
  | stop : HostResult
  | raiseOs : HostResult
deriving DecidableEq

/-- The `except` clauses of the loop body:
`except smtplib.SMTPServerDisconnected: break` and
`except smtplib.SMTPConnectError: continue`; an `OSError` matches neither
and propagates. -/
def handleSmtpExn : SmtpErr → HostResult
  | SmtpErr.serverDisconnected => HostResult.stop
  | SmtpErr.connectError => HostResult.next
  | SmtpErr.osError => HostResult.raiseOs

/-- The body of the `for mx in mx_hosts` loop for one host:
`smtp.connect(mx[1])`; `if not verify: return True`;
`status, _ = smtp.helo()`; `if status != 250: continue`;
`smtp.mail('')`; `status, _ = smtp.rcpt(email)`;
`if status != 250: return False`; `break` — with the two `except`
clauses applying to the whole body. -/
def probeHost (verify : Bool) (h : HostScript) : HostResult :=
  match h.connectR with
  | SmtpCall.exn e => handleSmtpExn e
  | SmtpCall.ok _ =>
    if !verify then HostResult.ret true
    else
      match h.heloR with
      | SmtpCall.exn e => handleSmtpExn e
      | SmtpCall.ok status =>
        if status != 250 then HostResult.next
        else
          match h.mailR with
          | SmtpCall.exn e => handleSmtpExn e
          | SmtpCall.ok _ =>
            match h.rcptR with
            | SmtpCall.exn e => handleSmtpExn e
            | SmtpCall.ok st =>
              if st != 250 then HostResult.ret false else HostResult.stop

/-- How the `for mx in mx_hosts` loop ends: a boolean return from the
function (a `break`, a `continue` past the last host, and an empty host list
all fall through to the final `return True`), or an uncaught `OSError`
propagating out of the loop. -/
inductive LoopOutcome : Type where
  | ret : Bool → LoopOutcome
  | oserror : LoopOutcome
deriving DecidableEq

/-- The `for mx in mx_hosts` loop, started at index `i`: returns how the
loop ends together with the indices of the hosts on which a connection was
attempted, in order. -/
def probeLoop (verify : Bool) : Nat → List HostScript → LoopOutcome × List Nat
  | _, [] => (LoopOutcome.ret true, [])
  | i, h :: rest =>
    match probeHost verify h with
    | HostResult.ret b => (LoopOutcome.ret b, [i])
    | HostResult.stop => (LoopOutcome.ret true, [i])
    | HostResult.raiseOs => (LoopOutcome.oserror, [i])
    | HostResult.next =>
      let r := probeLoop verify (i + 1) rest
      (r.1, i :: r.2)

/-- Network oracle: whether `import DNS` succeeded, the outcome of
`DNS.mxlookup(hostname)` (a preference/hostname list, or `DNS.ServerError`),
and the scripted SMTP behaviour of each hostname. -/
structure World : Type where
  dnsImported : Bool
  mxlookup : String → Except Unit (List (Nat × String))
  smtp : String → HostScript

/-- Network operations performed during one call: hostnames passed to
`DNS.mxlookup`, and indices (into `mx_hosts`) of hosts on which
`smtp.connect` was attempted. -/
structure Trace : Type where
  dnsLookups : List String
  smtpConnects : List Nat
deriving DecidableEq

/-- How a call to `validate_email` ends: a normal boolean return, a generic
`Exception` with the given message propagating to the caller, or an
`OSError` from a TCP connection attempt propagating to the caller. -/
inductive VResult : Type where
  | ok : Bool → VResult
  | raised : String → VResult
  | osError : VResult
deriving DecidableEq

/-- Lifts how the loop ended to how the call ends. -/
def loopResult : LoopOutcome → VResult
  | LoopOutcome.ret b => VResult.ok b
  | LoopOutcome.oserror => VResult.osError

/-- The message of the exception raised when the pyDNS package is missing. -/
def missingDnsMsg : String :=
  "For check the mx records or check if the email exists you must have installed pyDNS python package"

/-- `email[email.find('@')+1:]` on the character list: everything after the
first `'@'`; when there is no `'@'`, `find` returns `-1` and the slice is the
whole string. -/
def afterFirstAt (s : List Char) : List Char :=
  match s.dropWhile (fun c => !(c == '@')) with
  | [] => s
  | _ :: rest => rest

/-- `hostname = email[email.find('@')+1:]`. -/
def hostnameOf (email : String) : String :=
  String.mk (afterFirstAt email.toList)

/-- `validate_email(email, check_mx, verify)` over the oracle `w`, paired
with the trace of network operations.  Mirrors the source: the failed
`assert` (syntax mismatch) and `DNS.ServerError` from `mxlookup` are caught
by `except (AssertionError, ServerError): return False`; the generic
`Exception` raised when `DNS` is `None` is not caught and propagates; an
`OSError` escaping an smtplib call is caught by no clause and propagates;
otherwise the MX hosts are probed in order and the function falls through to
`return True`. -/
def validate_email (w : World) (email : String) (check_mx verify : Bool) :
    VResult × Trace :=
  if !pyMatchValid email then
    (VResult.ok false, ⟨[], []⟩)
  else
    let cm := check_mx || verify
    if cm then
      if !w.dnsImported then
        (VResult.raised missingDnsMsg, ⟨[], []⟩)
      else
        let hostname := hostnameOf email
        match w.mxlookup hostname with
        | Except.error _ => (VResult.ok false, ⟨[hostname], []⟩)
        | Except.ok mx_hosts =>
          let r := probeLoop verify 0 (mx_hosts.map (fun mx => w.smtp mx.2))
          (loopResult r.1, ⟨[hostname], r.2⟩)
    else
      (VResult.ok true, ⟨[], []⟩)

/-- A host that accepts the whole handshake. -/
def okScript : HostScript :=
  ⟨SmtpCall.ok (), SmtpCall.ok 250, SmtpCall.ok (), SmtpCall.ok 250⟩

/-- A host that completes the handshake and rejects the recipient (550). -/
def rejectScript : HostScript :=
  ⟨SmtpCall.ok (), SmtpCall.ok 250, SmtpCall.ok (), SmtpCall.ok 550⟩

/-- A host whose server disconnects during HELO, before any recipient
check. -/
def disconnectScript : HostScript :=
  ⟨SmtpCall.ok (), SmtpCall.exn SmtpErr.serverDisconnected, SmtpCall.ok (),
    SmtpCall.ok 250⟩

/-- A world in which the pyDNS package failed to import. -/
def wNoDns : World := ⟨false, fun _ => Except.error (), fun _ => okScript⟩

/-- DNS works but every domain has an empty MX host list. -/
def wEmptyMx : World := ⟨true, fun _ => Except.ok [], fun _ => okScript⟩

/-- One MX host, which rejects the recipient. -/
def wReject : World :=
  ⟨true, fun _ => Except.ok [(10, "mx1.example.com")], fun _ => rejectScript⟩

/-- One MX host, which disconnects during the handshake. -/
def wDisconnect : World :=
  ⟨true, fun _ => Except.ok [(10, "mx1.example.com")], fun _ => disconnectScript⟩

/-- Two MX hosts: the priority-10 host disconnects during the handshake, the
priority-20 host would reject the recipient. -/
def wDiscThenReject : World :=
  ⟨true, fun _ => Except.ok [(10, "mx1.example.com"), (20, "mx2.example.com")],
    fun h => if h == "mx1.example.com" then disconnectScript else rejectScript⟩

/-- With `check_mx = verify = false` the call is the bare grammar match and
produces an empty network trace. -/
theorem validate_noMx (w : World) (s : String) :
    validate_email w s false false = (VResult.ok (pyMatchValid s), ⟨[], []⟩) := by
  unfold validate_email
  cases h : pyMatchValid s <;> simp [h]

/-- With a valid address, MX checking requested, DNS available and a
successful lookup, the call reduces to the probe loop over the resolved
hosts. -/
theorem validate_mx (w : World) (email : String) (cm v : Bool)
    (mxs : List (Nat × String))
    (hsyn : pyMatchValid email = true) (hcm : (cm || v) = true)
    (hdns : w.dnsImported = true)
    (hmx : w.mxlookup (hostnameOf email) = Except.ok mxs) :
    validate_email w email cm v =
      (loopResult (probeLoop v 0 (mxs.map (fun mx => w.smtp mx.2))).1,
        ⟨[hostnameOf email], (probeLoop v 0 (mxs.map (fun mx => w.smtp mx.2))).2⟩) := by
  unfold validate_email
  simp [hsyn, hcm, hdns, hmx]

/-- `dropWhile` stops exactly at the first `'@'`. -/
theorem dropWhile_until_at (l r : List Char) (hl : '@' ∉ l) :
    (l ++ '@' :: r).dropWhile (fun c => !(c == '@')) = '@' :: r := by
  induction l with
  | nil => simp [List.dropWhile]
  | cons c l ih =>
    rw [List.mem_cons, not_or] at hl
    have hc : (c == '@') = false := beq_eq_false_iff_ne.mpr fun h => hl.1 h.symm
    simp [List.dropWhile, hc, ih hl.2]

/-- The slice `email[email.find('@')+1:]` on a string whose first `'@'`
separates `l` from `r` is exactly `r`. -/
theorem afterFirstAt_split (l r : List Char) (hl : '@' ∉ l) :
    afterFirstAt (l ++ '@' :: r) = r := by
  unfold afterFirstAt
  rw [dropWhile_until_at l r hl]

/-- Skipping a prefix of hosts on which the loop body `continue`s: the loop
result over `pre ++ post` is the result over `post`, and every host of the
prefix is contacted first, in order. -/
theorem probeLoop_next_append (verify : Bool) :
    ∀ (pre post : List HostScript) (i : Nat),
      (∀ g ∈ pre, probeHost verify g = HostResult.next) →
      probeLoop verify i (pre ++ post) =
        ((probeLoop verify (i + pre.length) post).1,
          List.range' i pre.length ++ (probeLoop verify (i + pre.length) post).2)
  | [], post, i, _ => by simp [List.range']
  | g :: pre, post, i, hpre => by
    have hg : probeHost verify g = HostResult.next :=
      hpre g (List.mem_cons_self g pre)
    have ih := probeLoop_next_append verify pre post (i + 1)
      (fun x hx => hpre x (List.mem_cons_of_mem g hx))
    have hidx : i + (pre.length + 1) = i + 1 + pre.length := by omega
    simp only [List.cons_append, probeLoop, hg, List.length_cons, hidx,
      List.range'_succ, List.append_eq]
    rw [ih]

/-- Claim C3: the syntactic check agrees with the RFC 2822 addr-spec table:
with `check_mx = false` (and `verify = false`) the validator returns true on
"user@example.com", "user.name+tag@sub.example.co",
"\"quoted user\"@example.com" and "user@[192.168.1.1]", and false on
"plainaddress", "@missinglocal.com", "user@" and "user@@example.com". -/
theorem claim3_syntax_table :
    (validate_email wNoDns "user@example.com" false false).1 = VResult.ok true ∧
    (validate_email wNoDns "user.name+tag@sub.example.co" false false).1 = VResult.ok true ∧
    (validate_email wNoDns "\"quoted user\"@example.com" false false).1 = VResult.ok true ∧
    (validate_email wNoDns "user@[192.168.1.1]" false false).1 = VResult.ok true ∧
    (validate_email wNoDns "plainaddress" false false).1 = VResult.ok false ∧
    (validate_email wNoDns "@missinglocal.com" false false).1 = VResult.ok false ∧
    (validate_email wNoDns "user@" false false).1 = VResult.ok false ∧
    (validate_email wNoDns "user@@example.com" false false).1 = VResult.ok false := by
  decide

/-- Claim C4 counterexample: "user@example.com\n" is not itself a valid
addr-spec (the full-string match fails), yet the syntactic check accepts it,
because Python's `$` also matches just before a trailing newline; moreover
"user@example.com" is a valid addr-spec and appending the character 'x'
yields a string the check still accepts, so a valid address with an extra
trailing character is not necessarily rejected. -/
theorem claim4_counterexample :
    rmatch ADDR_SPEC ("user@example.com\n").toList = false ∧
    (validate_email wNoDns "user@example.com\n" false false).1 = VResult.ok true ∧
    rmatch ADDR_SPEC ("user@example.com").toList = true ∧
    (validate_email wNoDns "user@example.comx" false false).1 = VResult.ok true := by
  decide

/-- Claim C4, amended: matching is anchored at both ends up to Python's `$`
semantics — a string is accepted by the syntactic check iff it is exactly a
valid addr-spec, or a valid addr-spec followed by a single trailing newline.
In particular no other leading or trailing junk is tolerated unless the
extended string happens to be a valid addr-spec itself. -/
theorem claim4_anchored_up_to_trailing_newline (w : World) (s : String) :
    (validate_email w s false false).1 = VResult.ok true ↔
      (rmatch ADDR_SPEC s.toList = true ∨
        (s.toList.getLastD 'a' = '\n' ∧ rmatch ADDR_SPEC s.toList.dropLast = true)) := by
  rw [validate_noMx]
  unfold pyMatchValid
  simp [Bool.or_eq_true, Bool.and_eq_true]

/-- Claim C4 witness: the amended characterisation applied at the concrete
accepted input "user@example.com\n". -/
theorem claim4_witness :
    (validate_email wNoDns "user@example.com\n" false false).1 = VResult.ok true :=
  (claim4_anchored_up_to_trailing_newline wNoDns "user@example.com\n").mpr
    (Or.inr (by decide))

/-- Claim C5: with `check_mx = false` and `verify = false`, for every input
string and every network world, the call returns exactly the result of the
anchored grammar match and the network trace is empty: no DNS lookup and no
SMTP connection is ever performed. -/
theorem claim5_no_network (w : World) (s : String) :
    validate_email w s false false = (VResult.ok (pyMatchValid s), ⟨[], []⟩) :=
  validate_noMx w s

/-- Claim C5 witness: concrete instance on a valid and an invalid input. -/
theorem claim5_witness :
    validate_email wNoDns "plainaddress" false false = (VResult.ok false, ⟨[], []⟩) :=
  (claim5_no_network wNoDns "plainaddress").trans (by decide)

/-- Claim C9: for every input string that fails the grammar match the
syntactic check returns the normal value `false` — no exception propagates
out of the call — and the network trace is empty. -/
theorem claim9_nonmatching_returns_false (w : World) (s : String)
    (hs : pyMatchValid s = false) :
    validate_email w s false false = (VResult.ok false, ⟨[], []⟩) := by
  rw [validate_noMx, hs]

/-- Claim C9 witness: the empty string fails the grammar and the call
returns `false` normally. -/
theorem claim9_witness :
    validate_email wNoDns "" false false = (VResult.ok false, ⟨[], []⟩) :=
  claim9_nonmatching_returns_false wNoDns "" (by decide)

/-- Claim C1: during deep verification (`verify = true`), if the probe
reaches an MX host (every earlier host's loop iteration ended in
`continue`) whose server completes the HELO/MAIL/RCPT handshake and answers
the RCPT check with a non-250 status, then the call returns `false` and the
connection attempts are exactly hosts `0 .. pre.length`: no later host is
ever contacted. -/
theorem claim1_rcpt_reject_short_circuits (w : World) (email : String)
    (cm : Bool) (mxs : List (Nat × String)) (pre post : List HostScript)
    (h : HostScript) (c : Nat)
    (hsyn : pyMatchValid email = true) (hdns : w.dnsImported = true)
    (hmx : w.mxlookup (hostnameOf email) = Except.ok mxs)
    (hsplit : mxs.map (fun mx => w.smtp mx.2) = pre ++ h :: post)
    (hpre : ∀ g ∈ pre, probeHost true g = HostResult.next)
    (hconn : h.connectR = SmtpCall.ok ()) (hhelo : h.heloR = SmtpCall.ok 250)
    (hmail : h.mailR = SmtpCall.ok ()) (hrcpt : h.rcptR = SmtpCall.ok c)
    (hc : c ≠ 250) :
    validate_email w email cm true =
      (VResult.ok false, ⟨[hostnameOf email], List.range' 0 (pre.length + 1)⟩) := by
  have hcb : (c != 250) = true := by simpa [bne_iff_ne] using hc
  have hhost : probeHost true h = HostResult.ret false := by
    simp [probeHost, hconn, hhelo, hmail, hrcpt, hcb]
  rw [validate_mx w email cm true mxs hsyn (Bool.or_true cm) hdns hmx, hsplit,
    probeLoop_next_append true pre (h :: post) 0 hpre]
  simp [probeLoop, hhost, loopResult, List.range'_concat]

/-- Claim C1 witness: one MX host which rejects the recipient with 550; the
call returns `false` having contacted only host 0. -/
theorem claim1_witness :
    validate_email wReject "user@example.com" false true =
      (VResult.ok false, ⟨["example.com"], [0]⟩) :=
  (claim1_rcpt_reject_short_circuits wReject "user@example.com" false
    [(10, "mx1.example.com")] [] [] rejectScript 550 (by decide) rfl rfl rfl
    (fun g hg => absurd hg (List.not_mem_nil g)) rfl rfl rfl rfl
    (by decide)).trans (by decide)

/-- Claim C2 counterexample: host 0 (priority 10) disconnects during the
HELO exchange, before any recipient check; host 1 (priority 20) would
reject the recipient.  The claim says probing continues with host 1; the
code instead executes `break` on `SMTPServerDisconnected`, so the call
returns `true` and the only connection attempt is host 0 — host 1 is never
contacted. -/
theorem claim2_counterexample :
    validate_email wDiscThenReject "user@example.com" true true =
      (VResult.ok true, ⟨["example.com"], [0]⟩) := by
  decide

/-- Claim C2, amended: during deep verification, if the probe reaches an MX
host whose server disconnects mid-handshake (at HELO, MAIL or RCPT, before
the recipient check yields a reply), the probe stops there: the call returns
`true` and no host later in the sequence is ever contacted (the code treats
the disconnection as "server does not permit verification" and breaks out of
the loop). -/
theorem claim2_disconnect_stops_probe (w : World) (email : String)
    (cm : Bool) (mxs : List (Nat × String)) (pre post : List HostScript)
    (h : HostScript)
    (hsyn : pyMatchValid email = true) (hdns : w.dnsImported = true)
    (hmx : w.mxlookup (hostnameOf email) = Except.ok mxs)
    (hsplit : mxs.map (fun mx => w.smtp mx.2) = pre ++ h :: post)
    (hpre : ∀ g ∈ pre, probeHost true g = HostResult.next)
    (hconn : h.connectR = SmtpCall.ok ())
    (hdisc : h.heloR = SmtpCall.exn SmtpErr.serverDisconnected ∨
      (h.heloR = SmtpCall.ok 250 ∧ h.mailR = SmtpCall.exn SmtpErr.serverDisconnected) ∨
      (h.heloR = SmtpCall.ok 250 ∧ h.mailR = SmtpCall.ok () ∧
        h.rcptR = SmtpCall.exn SmtpErr.serverDisconnected)) :
    validate_email w email cm true =
      (VResult.ok true, ⟨[hostnameOf email], List.range' 0 (pre.length + 1)⟩) := by
  have hhost : probeHost true h = HostResult.stop := by
    rcases hdisc with h1 | ⟨h1, h2⟩ | ⟨h1, h2, h3⟩
    · simp [probeHost, hconn, h1, handleSmtpExn]
    · simp [probeHost, hconn, h1, h2, handleSmtpExn]
    · simp [probeHost, hconn, h1, h2, h3, handleSmtpExn]
  rw [validate_mx w email cm true mxs hsyn (Bool.or_true cm) hdns hmx, hsplit,
    probeLoop_next_append true pre (h :: post) 0 hpre]
  simp [probeLoop, hhost, loopResult, List.range'_concat]

/-- Claim C2 witness (of the amended statement): one MX host which
disconnects during HELO; the call returns `true` having contacted only
host 0. -/
theorem claim2_witness :
    validate_email wDisconnect "user@example.com" true true =
      (VResult.ok true, ⟨["example.com"], [0]⟩) :=
  (claim2_disconnect_stops_probe wDisconnect "user@example.com" true
    [(10, "mx1.example.com")] [] [] disconnectScript (by decide) rfl rfl rfl
    (fun g hg => absurd hg (List.not_mem_nil g)) rfl
    (Or.inl rfl)).trans (by decide)

/-- Claim C6: for every syntactically valid address, if MX checking is
requested (`check_mx` or `verify`) while the pyDNS package is unavailable,
the call ends with the distinct configuration exception propagating to the
caller, and in particular does not return any boolean, let alone `false`. -/
theorem claim6_missing_dns_raises (w : World) (email : String) (cm v : Bool)
    (hsyn : pyMatchValid email = true) (hcm : (cm || v) = true)
    (hdns : w.dnsImported = false) :
    (validate_email w email cm v).1 = VResult.raised missingDnsMsg ∧
    ∀ b, (validate_email w email cm v).1 ≠ VResult.ok b := by
  unfold validate_email
  simp [hsyn, hcm, hdns]

/-- Claim C6 witness: concrete valid address, `check_mx = true`, world with
no DNS capability. -/
theorem claim6_witness :
    (validate_email wNoDns "user@example.com" true false).1 =
      VResult.raised missingDnsMsg ∧
    ∀ b, (validate_email wNoDns "user@example.com" true false).1 ≠ VResult.ok b :=
  claim6_missing_dns_raises wNoDns "user@example.com" true false (by decide)
    rfl rfl

/-- A host whose TCP connection attempt fails (connection refused or
connect timeout): `socket.create_connection` raises `OSError`. -/
def connRefusedScript : HostScript :=
  ⟨SmtpCall.exn SmtpErr.osError, SmtpCall.ok 250, SmtpCall.ok (),
    SmtpCall.ok 250⟩

/-- Two MX hosts: the TCP connection to the priority-10 host is refused,
the priority-20 host would accept the whole handshake. -/
def wConnRefusedThenOk : World :=
  ⟨true, fun _ => Except.ok [(10, "mx1.example.com"), (20, "mx2.example.com")],
    fun h => if h == "mx1.example.com" then connRefusedScript else okScript⟩

/-- Claim C7, evaluated at the failing input: host 0's TCP connection is
refused (`OSError` from `socket.create_connection`), host 1 would accept
the handshake.  The `OSError` is caught by no `except` clause —
`except smtplib.SMTPConnectError: continue` is dead on this path, since
smtplib raises `SMTPConnectError` only from `SMTP.__init__` when given a
host, and this code constructs `smtplib.SMTP()` bare — so the exception
propagates out of `validate_email` and host 1 is never contacted, contrary
to the claim that such a failure is recovered locally by advancing to the
next host and never surfaced to the caller. -/
theorem claim7_connect_oserror_propagates :
    validate_email wConnRefusedThenOk "user@example.com" true true =
      (VResult.osError, ⟨["example.com"], [0]⟩) := by
  decide

/-- Claim C8 counterexample: the syntactically valid address
"\"a@b\"@example.com" has its last `'@'` before "example.com", but the code
computes the hostname with `email.find('@')` — the FIRST `'@'` — so the MX
lookup is performed on "b\"@example.com", not on "example.com". -/
theorem claim8_counterexample :
    (validate_email wEmptyMx "\"a@b\"@example.com" true false).2.dnsLookups =
      ["b\"@example.com"] ∧
    "b\"@example.com" ≠ "example.com" := by
  decide

/-- Claim C8, amended: for every address split as `l ++ '@' :: r` with no
`'@'` in `l` — i.e. at the FIRST `'@'`, not the last — the domain used for
the MX lookup is exactly `r`, whenever the address is syntactically valid,
MX checking is requested and DNS is available. -/
theorem claim8_domain_after_first_at (w : World) (l r : List Char)
    (cm v : Bool) (hl : '@' ∉ l)
    (hsyn : pyMatchValid (String.mk (l ++ '@' :: r)) = true)
    (hcm : (cm || v) = true) (hdns : w.dnsImported = true) :
    (validate_email w (String.mk (l ++ '@' :: r)) cm v).2.dnsLookups =
      [String.mk r] := by
  have hhost : hostnameOf (String.mk (l ++ '@' :: r)) = String.mk r := by
    unfold hostnameOf
    have : (String.mk (l ++ '@' :: r)).toList = l ++ '@' :: r := rfl
    rw [this, afterFirstAt_split l r hl]
  unfold validate_email
  cases hmx : w.mxlookup (String.mk r) with
  | error e => simp [hsyn, hcm, hdns, hhost, hmx]
  | ok mxs => simp [hsyn, hcm, hdns, hhost, hmx]

/-- Claim C8 witness: the amended statement applied to the quoted-local-part
address "\"a@b\"@example.com", whose first `'@'` sits inside the quoted
string. -/
theorem claim8_witness :
    (validate_email wEmptyMx
        (String.mk (['"', 'a'] ++ '@' :: "b\"@example.com".toList))
        true false).2.dnsLookups = [String.mk "b\"@example.com".toList] :=
  claim8_domain_after_first_at wEmptyMx ['"', 'a'] "b\"@example.com".toList
    true false (by decide) (by decide) rfl rfl

/-- Claim C10: for every syntactically valid address, if MX checking is
requested, DNS is available and the MX lookup succeeds with an empty host
list, the call returns `true` and attempts no SMTP connection at all. -/
theorem claim10_empty_mx_returns_true (w : World) (email : String)
    (cm v : Bool)
    (hsyn : pyMatchValid email = true) (hcm : (cm || v) = true)
    (hdns : w.dnsImported = true)
    (hmx : w.mxlookup (hostnameOf email) = Except.ok []) :
    validate_email w email cm v =
      (VResult.ok true, ⟨[hostnameOf email], []⟩) := by
  rw [validate_mx w email cm v [] hsyn hcm hdns hmx]
  simp [probeLoop, loopResult]

/-- Claim C10 witness: concrete world whose MX lookup returns the empty
list. -/
theorem claim10_witness :
    validate_email wEmptyMx "user@example.com" true false =
      (VResult.ok true, ⟨["example.com"], []⟩) :=
  (claim10_empty_mx_returns_true wEmptyMx "user@example.com" true false
    (by decide) rfl rfl rfl).trans (by decide)

end OdooEmail
